import Mathlib

/-!
Shallow embedding of the pbsq-sk payment-QR core: the field rules and the
fail-fast validator (src validation module), the compliance engine
(src/compliance.ts), and the decode-direction model adapter
(src decoder module, transformFromDataModel), together with theorems
settling the specification claims.

JavaScript strings are modelled as Lean `String` (ASCII is the relevant
character range for every rule); JavaScript numbers are modelled by `JSNum`
(a rational together with the Infinity/NaN special values, exact for the
comparisons the code performs); absent (`undefined`) fields are `Option`.
-/

namespace PBSQ

/-- ASCII uppercase letter, the regex class [A-Z]. -/
def isUpperAZ (c : Char) : Bool := decide ('A' ≤ c) && decide (c ≤ 'Z')

/-- ASCII lowercase letter, the regex class [a-z]. -/
def isLowerAZ (c : Char) : Bool := decide ('a' ≤ c) && decide (c ≤ 'z')

/-- Whitespace as used by the code's regexes and String.trim
(ASCII range of the JS \s class). -/
def isSpaceChar (c : Char) : Bool :=
  c = ' ' || c = '\t' || c = '\n' || c = '\r' || c = '\x0b' || c = '\x0c'

/-- Models JS `String.prototype.toUpperCase` on one character
(ASCII range; all inputs the rules see are ASCII). -/
def jsToUpperChar (c : Char) : Char :=
  if isLowerAZ c then Char.ofNat (c.toNat - 32) else c

/-- Models JS `s.toUpperCase()`. -/
def jsToUpper (s : String) : String := ⟨s.data.map jsToUpperChar⟩

/-- Models JS `s.replace(/\s/g, '')`. -/
def stripSpaces (s : String) : String := ⟨s.data.filter (fun c => !isSpaceChar c)⟩

/-- Models JS `s.trim()`. -/
def jsTrim (s : String) : String :=
  ⟨((s.data.dropWhile isSpaceChar).reverse.dropWhile isSpaceChar).reverse⟩

/-- JS truthiness of an optional string: defined and non-empty. -/
def strTruthy : Option String → Bool
  | none => false
  | some s => !s.data.isEmpty

/-- The object-spread idiom `...(s && { f: s })`: keep the string only
when it is truthy. -/
def keepTruthy (o : Option String) : Option String :=
  if strTruthy o then o else none

/-- Models the regex test `/^\d{lo,hi}$/.test s`. -/
def matchesDigits (s : String) (lo hi : Nat) : Bool :=
  decide (lo ≤ s.data.length) && decide (s.data.length ≤ hi) &&
    s.data.all Char.isDigit

/-- A JavaScript number, exact for the operations the code performs
(comparison with constants and `isFinite`). -/
inductive JSNum where
  | fin (q : ℚ)
  | posInf
  | negInf
  | nan
deriving DecidableEq

/-- Models JS `a < 0` (false for NaN and +Infinity). -/
def JSNum.ltZero : JSNum → Bool
  | .fin q => decide (q < 0)
  | .negInf => true
  | .posInf => false
  | .nan => false

/-- Models JS `isFinite(a)`. -/
def JSNum.isFiniteNum : JSNum → Bool
  | .fin _ => true
  | _ => false

/-- Models JS `a > 999999999999999` (false for NaN and -Infinity). -/
def JSNum.gtMax : JSNum → Bool
  | .fin q => decide (q > 999999999999999)
  | .posInf => true
  | .negInf => false
  | .nan => false

/-- `beneficiaryAddress` sub-object of the input record (src/src/types.ts). -/
structure BeneficiaryAddress where
  street : Option String := none
  city : Option String := none
deriving DecidableEq

/-- The `PayBySquareInput` record (src/src/types.ts). `iban` and
`beneficiaryName` are required by the TS type, but the validator guards
them with optional chaining, so runtime records may omit them; `Option`
models that. -/
structure PayBySquareInput where
  iban : Option String := none
  beneficiaryName : Option String := none
  amount : Option JSNum := none
  currency : Option String := none
  variableSymbol : Option String := none
  constantSymbol : Option String := none
  specificSymbol : Option String := none
  paymentNote : Option String := none
  dueDate : Option String := none
  swift : Option String := none
  originatorReference : Option String := none
  beneficiaryAddress : Option BeneficiaryAddress := none
deriving DecidableEq

/-- Reads a field the TS type marks as required (the compliance engine
accesses these without optional chaining). -/
def reqStr (o : Option String) : String := o.getD ""

/-! ### FieldRules (src validation module) -/

/-- The regex `^[A-Z]{2}[0-9]{2}[A-Z0-9]{11,30}$`. -/
def ibanShape (s : String) : Bool :=
  match s.data with
  | c1 :: c2 :: d1 :: d2 :: rest =>
    isUpperAZ c1 && isUpperAZ c2 && d1.isDigit && d2.isDigit &&
      decide (11 ≤ rest.length) && decide (rest.length ≤ 30) &&
      rest.all (fun c => isUpperAZ c || c.isDigit)
  | _ => false

/-- `isValidIBAN` of the validation module: strip whitespace, then the
structural regex. -/
def isValidIBAN (iban : String) : Bool := ibanShape (stripSpaces iban)

/-- `^[A-Z]{3}$` on an already-built string. -/
def threeUpper (s : String) : Bool :=
  decide (s.data.length = 3) && s.data.all isUpperAZ

/-- `isValidCurrencyCode` of the validation module:
`/^[A-Z]{3}$/.test(code.toUpperCase())`. -/
def isValidCurrencyCode (code : String) : Bool := threeUpper (jsToUpper code)

/-- Numeric value of a digit string. -/
def digitsVal (cs : List Char) : Nat :=
  cs.foldl (fun a c => a * 10 + (c.toNat - 48)) 0

/-- The regex `^(\d{4})-(\d{2})-(\d{2})$` with its captured numeric triple. -/
def parseISOTriple (s : String) : Option (Nat × Nat × Nat) :=
  match s.data with
  | [y1, y2, y3, y4, h1, m1, m2, h2, d1, d2] =>
    if h1 = '-' && h2 = '-' &&
        ([y1, y2, y3, y4, m1, m2, d1, d2].all Char.isDigit) then
      some (digitsVal [y1, y2, y3, y4], digitsVal [m1, m2], digitsVal [d1, d2])
    else none
  | _ => none

/-- The bare grammar test `/^\d{4}-\d{2}-\d{2}$/.test s` (the only date
check the compliance engine performs). -/
def isoDateGrammar (s : String) : Bool := (parseISOTriple s).isSome

/-- Gregorian leap year. -/
def isLeapYear (y : Nat) : Bool := (y % 4 == 0 && y % 100 != 0) || y % 400 == 0

/-- Days in a month of the proleptic Gregorian calendar. -/
def daysInMonth (y m : Nat) : Nat :=
  if m = 2 then (if isLeapYear y then 29 else 28)
  else if m = 4 || m = 6 || m = 9 || m = 11 then 30
  else 31

/-- Models the (year, month, day) components of `new Date("YYYY-MM-DD")`
in a UTC environment: a conforming string needs month 01-12 and day 01-31,
otherwise the Date is invalid (`none`, every component comparison false);
a day past the end of the month rolls over into the following month, as
ECMAScript MakeDay arithmetic does. -/
def jsDateYMD (y m d : Nat) : Option (Nat × Nat × Nat) :=
  if 1 ≤ m && m ≤ 12 && 1 ≤ d && d ≤ 31 then
    let dim := daysInMonth y m
    if d ≤ dim then some (y, m, d)
    else if m = 12 then some (y + 1, 1, d - dim)
    else some (y, m + 1, d - dim)
  else none

/-- Whether the captured numeric triple survives calendar-date
construction unchanged. -/
def tripleSurvives (s : String) : Bool :=
  match parseISOTriple s with
  | some (y, m, d) => decide (jsDateYMD y m d = some (y, m, d))
  | none => false

/-- `isValidISODate` of the validation module: the grammar regex, then
`new Date(date)` must reproduce the year, month and day. -/
def isValidISODate (date : String) : Bool :=
  match parseISOTriple date with
  | none => false
  | some (y, m, d) =>
    match jsDateYMD y m d with
    | none => false
    | some (y2, m2, d2) => decide (y2 = y) && decide (m2 = m) && decide (d2 = d)

/-! ### Validator (src validation module, `validateInput`) -/

/-- `!input.iban?.trim()` / `!input.beneficiaryName?.trim()`. -/
def reqMissing : Option String → Bool
  | none => true
  | some s => (jsTrim s).data.isEmpty

def vIbanMissing (i : PayBySquareInput) : Bool := reqMissing i.iban

def vNameMissing (i : PayBySquareInput) : Bool := reqMissing i.beneficiaryName

def vIbanBad (i : PayBySquareInput) : Bool := !isValidIBAN (reqStr i.iban)

/-- `typeof amount !== 'number' || amount < 0`; in the typed model the
field, when present, is always a number, so only the sign test can fire. -/
def vAmountNeg (i : PayBySquareInput) : Bool :=
  match i.amount with
  | some a => a.ltZero
  | none => false

def vAmountInf (i : PayBySquareInput) : Bool :=
  match i.amount with
  | some a => !a.isFiniteNum
  | none => false

def vCurrencyBad (i : PayBySquareInput) : Bool :=
  strTruthy i.currency && !isValidCurrencyCode (reqStr i.currency)

def vVarSymBad (i : PayBySquareInput) : Bool :=
  strTruthy i.variableSymbol && !matchesDigits (reqStr i.variableSymbol) 1 10

def vConstSymBad (i : PayBySquareInput) : Bool :=
  strTruthy i.constantSymbol && !matchesDigits (reqStr i.constantSymbol) 1 4

def vSpecSymBad (i : PayBySquareInput) : Bool :=
  strTruthy i.specificSymbol && !matchesDigits (reqStr i.specificSymbol) 1 10

def vNoteLong (i : PayBySquareInput) : Bool :=
  strTruthy i.paymentNote && decide ((reqStr i.paymentNote).data.length > 140)

def vNameLong (i : PayBySquareInput) : Bool :=
  decide ((reqStr i.beneficiaryName).data.length > 70)

def addrStreet (i : PayBySquareInput) : Option String :=
  i.beneficiaryAddress.bind (fun a => a.street)

def addrCity (i : PayBySquareInput) : Option String :=
  i.beneficiaryAddress.bind (fun a => a.city)

def vStreetLong (i : PayBySquareInput) : Bool :=
  strTruthy (addrStreet i) && decide ((reqStr (addrStreet i)).data.length > 70)

def vCityLong (i : PayBySquareInput) : Bool :=
  strTruthy (addrCity i) && decide ((reqStr (addrCity i)).data.length > 70)

def vDueDateBad (i : PayBySquareInput) : Bool :=
  strTruthy i.dueDate && !isValidISODate (reqStr i.dueDate)

/-- `validateInput` of the validation module. The `Except` error value is
the rule text handed to the `ValidationError` constructor; the thrown
error's `.message` adds the class prefix, see `validationErrorMessage`. -/
def validateInput (input : PayBySquareInput) : Except String Unit :=
  if vIbanMissing input then .error "IBAN is required"
  else if vNameMissing input then .error "Beneficiary name is required"
  else if vIbanBad input then .error "Invalid IBAN format"
  else if vAmountNeg input then .error "Amount must be a positive number"
  else if vAmountInf input then .error "Amount must be a finite number"
  else if vCurrencyBad input then
    .error ("Invalid currency code: " ++ reqStr input.currency)
  else if vVarSymBad input then .error "Variable symbol must be 1-10 digits"
  else if vConstSymBad input then .error "Constant symbol must be 1-4 digits"
  else if vSpecSymBad input then .error "Specific symbol must be 1-10 digits"
  else if vNoteLong input then .error "Payment note cannot exceed 140 characters"
  else if vNameLong input then .error "Beneficiary name cannot exceed 70 characters"
  else if vStreetLong input then .error "Beneficiary street cannot exceed 70 characters"
  else if vCityLong input then .error "Beneficiary city cannot exceed 70 characters"
  else if vDueDateBad input then
    .error "Due date must be in ISO 8601 format (YYYY-MM-DD)"
  else .ok ()

/-- The validator's rule table, in the source's textual order: a violation
test paired with the message of the `ValidationError` it raises. -/
def validatorRules : List ((PayBySquareInput → Bool) × (PayBySquareInput → String)) :=
  [ (vIbanMissing, fun _ => "IBAN is required"),
    (vNameMissing, fun _ => "Beneficiary name is required"),
    (vIbanBad, fun _ => "Invalid IBAN format"),
    (vAmountNeg, fun _ => "Amount must be a positive number"),
    (vAmountInf, fun _ => "Amount must be a finite number"),
    (vCurrencyBad, fun i => "Invalid currency code: " ++ reqStr i.currency),
    (vVarSymBad, fun _ => "Variable symbol must be 1-10 digits"),
    (vConstSymBad, fun _ => "Constant symbol must be 1-4 digits"),
    (vSpecSymBad, fun _ => "Specific symbol must be 1-10 digits"),
    (vNoteLong, fun _ => "Payment note cannot exceed 140 characters"),
    (vNameLong, fun _ => "Beneficiary name cannot exceed 70 characters"),
    (vStreetLong, fun _ => "Beneficiary street cannot exceed 70 characters"),
    (vCityLong, fun _ => "Beneficiary city cannot exceed 70 characters"),
    (vDueDateBad, fun _ => "Due date must be in ISO 8601 format (YYYY-MM-DD)") ]

/-- Message of the first violated rule of an ordered rule table. -/
def firstViolationIn (input : PayBySquareInput) :
    List ((PayBySquareInput → Bool) × (PayBySquareInput → String)) → Option String
  | [] => none
  | r :: rs => if r.1 input then some (r.2 input) else firstViolationIn input rs

/-- Message of the first violated validator rule, in the fixed order. -/
def firstViolation (input : PayBySquareInput) : Option String :=
  firstViolationIn input validatorRules

/-- The fail-fast outcome the rule table prescribes. -/
def firstViolationExcept (input : PayBySquareInput) : Except String Unit :=
  match firstViolation input with
  | some m => .error m
  | none => .ok ()

/-! ### Compliance engine (src/src/compliance.ts) -/

inductive IssueType where
  | error
  | warning
deriving DecidableEq

inductive Severity where
  | critical
  | major
  | minor
deriving DecidableEq

/-- `ComplianceIssue` (src/src/types.ts). -/
structure ComplianceIssue where
  type : IssueType
  field : String
  message : String
  severity : Severity
deriving DecidableEq

/-- `ComplianceDetails` (src/src/types.ts). -/
structure ComplianceDetails where
  ibanValid : Bool
  fieldsValid : Bool
  bankingStandardsValid : Bool
  totalIssues : Nat
deriving DecidableEq

/-- `ComplianceResult` (src/src/types.ts). -/
structure ComplianceResult where
  isCompliant : Bool
  errors : List ComplianceIssue
  warnings : List ComplianceIssue
  details : ComplianceDetails
deriving DecidableEq

/-- Value of one IBAN character in the mod-97 expansion (A=10 .. Z=35). -/
def letterVal (c : Char) : Nat := c.toNat - 55

/-- One step of the incremental mod-97 reduction. -/
def mod97Step (acc : Nat) (c : Char) : Nat :=
  if c.isDigit then (acc * 10 + (c.toNat - 48)) % 97
  else (acc * 100 + letterVal c) % 97

/-- Mod-97 value of an IBAN after moving the first four characters to the
end and expanding letters to two digits. -/
def ibanMod97 (s : String) : Nat :=
  (s.data.drop 4 ++ s.data.take 4).foldl mod97Step 0

/-- Modelled from the spec: the external IBAN-checksum primitive
(`ibantools.isValidIBAN`, an external collaborator whose source is not in
the repository), "structural grammar plus a mod-97 checksum" per the
glossary — the electronic-format structural grammar (so a string carrying
whitespace is rejected as-is) and the standard mod-97 == 1 test. -/
def checksumValid (iban : String) : Bool :=
  ibanShape iban && ibanMod97 iban == 1

/-- `validateIBANChecksum` of compliance.ts: an issue iff the checksum
primitive rejects the raw, un-stripped string. -/
def validateIBANChecksum (iban : String) : Option ComplianceIssue :=
  if !checksumValid iban then
    some { type := .error, field := "iban",
           message := "IBAN checksum validation failed (mod-97 algorithm)",
           severity := .critical }
  else none

/-- Modelled from the spec: the external BIC/SWIFT structural primitive
(`ibantools.isValidBIC`), "standard 8- or 11-character BIC grammar". -/
def isValidBIC (s : String) : Bool :=
  (s.data.length == 8 || s.data.length == 11) &&
    (s.data.take 6).all isUpperAZ &&
    (s.data.drop 6).all (fun c => isUpperAZ c || c.isDigit)

/-- Modelled from the spec: the known-currency table (`CurrencyCode` of the
external codec); the spec treats its exact contents as non-normative, so a
small representative ISO 4217 table suffices. -/
def knownCurrencies : List String := ["EUR", "USD", "CZK", "GBP", "HUF", "PLN"]

/-- `validateFieldFormats` of compliance.ts, issues in source push order. -/
def validateFieldFormats (input : PayBySquareInput) : List ComplianceIssue :=
  (let cleaned := stripSpaces (reqStr input.iban)
   if cleaned.data.length < 15 || cleaned.data.length > 34 then
     [{ type := .error, field := "iban",
        message := "IBAN length must be between 15 and 34 characters",
        severity := .major }]
   else []) ++
  (if (reqStr input.beneficiaryName).data.length > 70 then
     [{ type := .error, field := "beneficiaryName",
        message := "Exceeds maximum length of 70 characters",
        severity := .major }]
   else []) ++
  (if strTruthy input.variableSymbol &&
      !matchesDigits (reqStr input.variableSymbol) 1 10 then
     [{ type := .error, field := "variableSymbol",
        message := "Must contain only digits (1-10)", severity := .major }]
   else []) ++
  (if strTruthy input.constantSymbol &&
      !matchesDigits (reqStr input.constantSymbol) 1 4 then
     [{ type := .error, field := "constantSymbol",
        message := "Must contain only digits (1-4)", severity := .major }]
   else []) ++
  (if strTruthy input.specificSymbol &&
      !matchesDigits (reqStr input.specificSymbol) 1 10 then
     [{ type := .error, field := "specificSymbol",
        message := "Must contain only digits (1-10)", severity := .major }]
   else []) ++
  (if strTruthy input.paymentNote &&
      decide ((reqStr input.paymentNote).data.length > 140) then
     [{ type := .error, field := "paymentNote",
        message := "Exceeds maximum length of 140 characters",
        severity := .major }]
   else []) ++
  (if strTruthy (addrStreet input) &&
      decide ((reqStr (addrStreet input)).data.length > 70) then
     [{ type := .error, field := "beneficiaryAddress.street",
        message := "Exceeds maximum length of 70 characters",
        severity := .minor }]
   else []) ++
  (if strTruthy (addrCity input) &&
      decide ((reqStr (addrCity input)).data.length > 70) then
     [{ type := .error, field := "beneficiaryAddress.city",
        message := "Exceeds maximum length of 70 characters",
        severity := .minor }]
   else []) ++
  (if strTruthy input.dueDate && !isoDateGrammar (reqStr input.dueDate) then
     [{ type := .error, field := "dueDate",
        message := "Must be in ISO 8601 format (YYYY-MM-DD)",
        severity := .major }]
   else [])

/-- `validateBankingStandards` of compliance.ts, issues in source push
order (the three amount checks are independent ifs, not an else chain). -/
def validateBankingStandards (input : PayBySquareInput) : List ComplianceIssue :=
  (if strTruthy input.swift && !isValidBIC (reqStr input.swift) then
     [{ type := .error, field := "swift",
        message := "Invalid BIC/SWIFT code format", severity := .major }]
   else []) ++
  (if strTruthy input.currency &&
      !knownCurrencies.contains (jsToUpper (reqStr input.currency)) then
     [{ type := .warning, field := "currency",
        message := "Currency code not in ISO 4217 standard",
        severity := .minor }]
   else []) ++
  (match input.amount with
   | some a =>
     (if a.ltZero then
        [{ type := .error, field := "amount",
           message := "Amount must be positive", severity := .critical }]
      else []) ++
     (if a.gtMax then
        [{ type := .error, field := "amount",
           message := "Amount exceeds PayBySquare maximum (999,999,999,999,999)",
           severity := .major }]
      else []) ++
     (if !a.isFiniteNum then
        [{ type := .error, field := "amount",
           message := "Amount must be a finite number", severity := .critical }]
      else [])
   | none => [])

/-- Whether an issue is error-classified. -/
def isErr (i : ComplianceIssue) : Bool := i.type == IssueType.error

/-- `isCompliant` of compliance.ts: short-circuit on the checksum, then
count the error-classified issues of the two rule groups. -/
def isCompliant (input : PayBySquareInput) : Bool :=
  if !checksumValid (reqStr input.iban) then false
  else
    let issues := validateFieldFormats input ++ validateBankingStandards input
    (issues.filter isErr).length == 0

/-- `checkCompliance` of compliance.ts. -/
def checkCompliance (input : PayBySquareInput) : ComplianceResult :=
  let ibanIssue := validateIBANChecksum (reqStr input.iban)
  let fieldIssues := validateFieldFormats input
  let bankingIssues := validateBankingStandards input
  let errors := (match ibanIssue with | some i => [i] | none => []) ++
    fieldIssues.filter isErr ++ bankingIssues.filter isErr
  let warnings := fieldIssues.filter (fun i => !isErr i) ++
    bankingIssues.filter (fun i => !isErr i)
  { isCompliant := errors.length == 0,
    errors := errors,
    warnings := warnings,
    details :=
      { ibanValid := ibanIssue.isNone,
        fieldsValid := (fieldIssues.filter isErr).length == 0,
        bankingStandardsValid := (bankingIssues.filter isErr).length == 0,
        totalIssues := errors.length + warnings.length } }

/-! ### Model adapter, decode direction (src decoder module) -/

/-- A bank account of the canonical model (external codec's `DataModel`). -/
structure BankAccount where
  iban : String
  bic : Option String := none
deriving DecidableEq

/-- A beneficiary of the canonical model. -/
structure Beneficiary where
  name : Option String := none
  street : Option String := none
  city : Option String := none
deriving DecidableEq

/-- A payment entry of the canonical model. Per the decoder's own comment,
the external codec returns `amount = 0` and `currencyCode = ''` when no
amount was supplied, so these two fields are total with those sentinels. -/
structure Payment where
  amount : JSNum := .fin 0
  currencyCode : String := ""
  variableSymbol : Option String := none
  constantSymbol : Option String := none
  specificSymbol : Option String := none
  paymentNote : Option String := none
  paymentDueDate : Option String := none
  originatorsReferenceInformation : Option String := none
  bankAccounts : List BankAccount := []
  beneficiary : Option Beneficiary := none
deriving DecidableEq

/-- The canonical model produced by the external codec. -/
structure DataModel where
  payments : List Payment
deriving DecidableEq

/-- `transformFromDataModel` of the decoder module. The `Except` error
value is the text handed to the `DecodingError` constructor. -/
def transformFromDataModel (data : DataModel) : Except String PayBySquareInput :=
  match data.payments.head? with
  | none => .error "No payment data found in QR code"
  | some payment =>
    match payment.bankAccounts.head? with
    | none => .error "No IBAN found in payment data"
    | some bankAccount =>
      if bankAccount.iban.data.isEmpty then .error "No IBAN found in payment data"
      else
        .ok
          { iban := some bankAccount.iban,
            beneficiaryName := some
              (match payment.beneficiary with
               | some b => reqStr b.name
               | none => ""),
            amount :=
              if payment.currencyCode.data.isEmpty then none
              else some payment.amount,
            currency :=
              if payment.currencyCode.data.isEmpty then none
              else some payment.currencyCode,
            variableSymbol := keepTruthy payment.variableSymbol,
            constantSymbol := keepTruthy payment.constantSymbol,
            specificSymbol := keepTruthy payment.specificSymbol,
            paymentNote := keepTruthy payment.paymentNote,
            dueDate := keepTruthy payment.paymentDueDate,
            swift := keepTruthy bankAccount.bic,
            originatorReference :=
              keepTruthy payment.originatorsReferenceInformation,
            beneficiaryAddress :=
              match payment.beneficiary with
              | some b =>
                if strTruthy b.street || strTruthy b.city then
                  some { street := keepTruthy b.street, city := keepTruthy b.city }
                else none
              | none => none }

/-! ### Error classes (src errors module) -/

/-- Message of a `ValidationError` as its constructor builds it. -/
def validationErrorMessage (m : String) : String := "Validation Error: " ++ m

/-- Message of a `DecodingError` as its constructor builds it. -/
def decodingErrorMessage (m : String) : String := "Decoding Error: " ++ m

/-- The `.message` of the exception `validateInput` throws, when any. -/
def validateInputMessage (input : PayBySquareInput) : Option String :=
  match validateInput input with
  | .error m => some (validationErrorMessage m)
  | .ok _ => none

/-- The `.message` of the exception `transformFromDataModel` throws. -/
def transformMessage (data : DataModel) : Option String :=
  match transformFromDataModel data with
  | .error m => some (decodingErrorMessage m)
  | .ok _ => none

/-! ### Concrete records used by the theorems -/

/-- A string of `n` letters x. -/
def xs (n : Nat) : String := ⟨List.replicate n 'x'⟩

/-- A string of `n` digits 1. -/
def ones (n : Nat) : String := ⟨List.replicate n '1'⟩

/-- A minimal record that passes every validator rule. -/
def baseRec : PayBySquareInput :=
  { iban := some "SK9611000000002918599669", beneficiaryName := some "X" }

/-! ### Theorems -/

/-- Unfolding step of `firstViolationIn` on a cons cell. -/
theorem fvi_cons (input : PayBySquareInput) (c : PayBySquareInput → Bool)
    (m : PayBySquareInput → String)
    (rs : List ((PayBySquareInput → Bool) × (PayBySquareInput → String))) :
    firstViolationIn input ((c, m) :: rs) =
      if c input then some (m input) else firstViolationIn input rs := rfl

/-- `firstViolationIn` on the empty table. -/
theorem fvi_nil (input : PayBySquareInput) :
    firstViolationIn input [] = none := rfl

/-- Pushing the error/ok wrapper through one conditional of the first
violation chain. -/
theorem match_ite (c : Prop) [Decidable c] (a : String) (o : Option String) :
    (match (if c then some a else o) with
      | some m => Except.error m
      | none => (Except.ok () : Except String Unit)) =
      if c then Except.error a
      else (match o with
        | some m => Except.error m
        | none => Except.ok ()) := by
  split_ifs <;> rfl

/-- The validator is the first-violation scan of its ordered rule table. -/
theorem validateInput_eq_firstViolation :
    ∀ input, validateInput input = firstViolationExcept input := by
  intro input
  unfold firstViolationExcept firstViolation validatorRules
  rw [fvi_cons, fvi_cons, fvi_cons, fvi_cons, fvi_cons, fvi_cons, fvi_cons,
      fvi_cons, fvi_cons, fvi_cons, fvi_cons, fvi_cons, fvi_cons, fvi_cons,
      fvi_nil]
  rw [match_ite, match_ite, match_ite, match_ite, match_ite, match_ite,
      match_ite, match_ite, match_ite, match_ite, match_ite, match_ite,
      match_ite, match_ite]
  rfl

/-- **C2**. Fail-fast ordering of the validator: for every input record,
`validateInput` reports exactly the message of the first violated rule of
the fixed ordered rule table (IBAN present, beneficiary name present, IBAN
structure, amount sign then finiteness, currency, variableSymbol,
constantSymbol, specificSymbol, paymentNote length, beneficiaryName
length, street length, city length, dueDate grammar), and in particular a
record with beneficiaryName "X" and no IBAN fails with the rule message
"IBAN is required". -/
theorem validator_fail_fast :
    (∀ input, validateInput input = firstViolationExcept input) ∧
    validateInput { beneficiaryName := some "X" } =
      Except.error "IBAN is required" := by
  exact ⟨validateInput_eq_firstViolation, rfl⟩

/-- **C4**. Boundary acceptance: an otherwise-valid record with a
70-character beneficiaryName validates, 71 characters fails with
"Beneficiary name cannot exceed 70 characters"; identically for
paymentNote at 140/141, variableSymbol and specificSymbol at 10/11
digits, constantSymbol at 4/5 digits, and address street/city at
70/71 characters. -/
theorem validator_boundaries :
    validateInput { baseRec with beneficiaryName := some (xs 70) } = .ok () ∧
    validateInput { baseRec with beneficiaryName := some (xs 71) } =
      .error "Beneficiary name cannot exceed 70 characters" ∧
    validateInput { baseRec with paymentNote := some (xs 140) } = .ok () ∧
    validateInput { baseRec with paymentNote := some (xs 141) } =
      .error "Payment note cannot exceed 140 characters" ∧
    validateInput { baseRec with variableSymbol := some (ones 10) } = .ok () ∧
    validateInput { baseRec with variableSymbol := some (ones 11) } =
      .error "Variable symbol must be 1-10 digits" ∧
    validateInput { baseRec with specificSymbol := some (ones 10) } = .ok () ∧
    validateInput { baseRec with specificSymbol := some (ones 11) } =
      .error "Specific symbol must be 1-10 digits" ∧
    validateInput { baseRec with constantSymbol := some (ones 4) } = .ok () ∧
    validateInput { baseRec with constantSymbol := some (ones 5) } =
      .error "Constant symbol must be 1-4 digits" ∧
    validateInput
      { baseRec with beneficiaryAddress := some { street := some (xs 70) } } =
      .ok () ∧
    validateInput
      { baseRec with beneficiaryAddress := some { street := some (xs 71) } } =
      .error "Beneficiary street cannot exceed 70 characters" ∧
    validateInput
      { baseRec with beneficiaryAddress := some { city := some (xs 70) } } =
      .ok () ∧
    validateInput
      { baseRec with beneficiaryAddress := some { city := some (xs 71) } } =
      .error "Beneficiary city cannot exceed 70 characters" :=
  ⟨rfl, rfl, rfl, rfl, rfl, rfl, rfl, rfl, rfl, rfl, rfl, rfl, rfl, rfl⟩

/-- A string is empty iff its character list is. -/
theorem strEmpty_iff (s : String) : s.data.isEmpty = true ↔ s = "" := by
  obtain ⟨l⟩ := s
  cases l <;> simp [List.isEmpty, String.ext_iff]

/-- The canonical model whose primary payment carries the
zero-amount/empty-currency sentinel. -/
def sentinelModel : DataModel :=
  { payments := [{ bankAccounts := [{ iban := "SK9611000000002918599669" }] }] }

/-- The record `transformFromDataModel` produces for `sentinelModel`. -/
def sentinelRec : PayBySquareInput :=
  { iban := some "SK9611000000002918599669", beneficiaryName := some "" }

/-- **C1**. Amount/currency sentinel law: when the decode-direction
adapter succeeds, the output record's amount and currency are populated
iff the primary payment's currency code is non-empty; in particular a
primary payment with the zero-amount/empty-currency sentinel decodes to a
record with amount and currency both absent (never amount zero). -/
theorem amount_currency_sentinel (data : DataModel) (p : Payment)
    (ps : List Payment) (rec : PayBySquareInput)
    (hp : data.payments = p :: ps)
    (hok : transformFromDataModel data = .ok rec) :
    rec.amount.isSome = !p.currencyCode.data.isEmpty ∧
    rec.currency.isSome = !p.currencyCode.data.isEmpty ∧
    (p.currencyCode = "" → rec.amount = none ∧ rec.currency = none) := by
  unfold transformFromDataModel at hok
  rw [hp] at hok
  simp only [List.head?] at hok
  cases hb : p.bankAccounts with
  | nil => rw [hb] at hok; simp at hok
  | cons a l =>
    rw [hb] at hok
    simp only [List.head?] at hok
    by_cases he : a.iban.data.isEmpty = true
    · rw [if_pos he] at hok; simp at hok
    · rw [if_neg he] at hok
      injection hok.symm with hrec
      subst hrec
      by_cases hc : p.currencyCode.data.isEmpty = true
      · refine ⟨by simp [hc], by simp [hc], fun _ => ⟨by simp [hc], by simp [hc]⟩⟩
      · refine ⟨by simp [hc], by simp [hc], fun hcc => ?_⟩
        exact absurd ((strEmpty_iff _).mpr hcc) hc

/-- Witness for C1 at the concrete sentinel model. -/
theorem amount_currency_sentinel_witness :
    sentinelRec.amount = none ∧ sentinelRec.currency = none :=
  (amount_currency_sentinel sentinelModel
    { bankAccounts := [{ iban := "SK9611000000002918599669" }] } [] sentinelRec
    rfl rfl).2.2 rfl

/-- Whether a decode-direction transform outcome is a failure. -/
def isDecodeError (e : Except String PayBySquareInput) : Bool :=
  match e with
  | .error _ => true
  | .ok _ => false

/-- A canonical model whose primary payment has a first bank account with
an empty IBAN and a second bank account with a valid IBAN. -/
def c7Model : DataModel :=
  { payments := [{ bankAccounts :=
      [{ iban := "" }, { iban := "SK9611000000002918599669" }] }] }

/-- **C7** (counterexample). The claim says the decode-direction transform
fails iff no payment entry exists or the primary payment has no bank
account with an IBAN; here the single payment does carry a bank account
with a non-empty IBAN (its second one), yet the transform raises a
DecodingError, because only the first bank account is consulted. -/
theorem decode_failure_counterexample :
    transformFromDataModel c7Model = .error "No IBAN found in payment data" ∧
    c7Model.payments.length = 1 ∧
    c7Model.payments.all
      (fun p => p.bankAccounts.any (fun a => !a.iban.data.isEmpty)) = true :=
  ⟨rfl, rfl, rfl⟩

/-- **C7** (amended). The decode-direction transform raises a
DecodingError iff the canonical model has no payment entry, or the primary
payment's FIRST bank account is missing or carries an empty IBAN (later
bank accounts are never consulted); in every other case it returns a
record whose iban is the primary payment's first bank account IBAN. -/
theorem decode_failure_condition :
    (∀ data : DataModel,
      isDecodeError (transformFromDataModel data) = true ↔
        data.payments = [] ∨
        ∃ p ps, data.payments = p :: ps ∧
          (p.bankAccounts = [] ∨
           ∃ a rest, p.bankAccounts = a :: rest ∧ a.iban = "")) ∧
    (∀ (data : DataModel) (p : Payment) (ps : List Payment) (a : BankAccount)
       (rest : List BankAccount) (rec : PayBySquareInput),
      data.payments = p :: ps → p.bankAccounts = a :: rest →
      transformFromDataModel data = .ok rec → rec.iban = some a.iban) := by
  constructor
  · intro data
    unfold transformFromDataModel
    cases hpl : data.payments with
    | nil => simp [isDecodeError]
    | cons p ps =>
      cases hbl : p.bankAccounts with
      | nil => simp [isDecodeError, hbl]
      | cons a rest =>
        by_cases he : a.iban.data.isEmpty = true
        · have ha := (strEmpty_iff a.iban).mp he
          simp [isDecodeError, List.head?, hbl, he, ha]
        · have hne : ¬a.iban = "" := fun hcc => he ((strEmpty_iff _).mpr hcc)
          simp [isDecodeError, List.head?, hbl, he, hne]
  · intro data p ps a rest rec hp hb hok
    unfold transformFromDataModel at hok
    rw [hp] at hok
    simp only [List.head?, hb] at hok
    by_cases he : a.iban.data.isEmpty = true
    · rw [if_pos he] at hok; simp at hok
    · rw [if_neg he] at hok
      injection hok.symm with hrec
      subst hrec
      rfl

/-- Witness for C7 at the concrete sentinel model: decode succeeds and
keeps the first bank account's IBAN. -/
theorem decode_failure_condition_witness :
    sentinelRec.iban = some "SK9611000000002918599669" :=
  decode_failure_condition.2 sentinelModel
    { bankAccounts := [{ iban := "SK9611000000002918599669" }] } []
    { iban := "SK9611000000002918599669" } [] sentinelRec rfl rfl rfl

/-- **C8** (counterexample). The claim says any currency string that is
not exactly 3 uppercase letters — such as lowercase "eur" — is rejected
with the invalid-currency-code error; but `isValidCurrencyCode` uppercases
its argument before the `^[A-Z]{3}$` test, so "eur" is accepted and the
whole record validates. -/
theorem currency_case_counterexample :
    isValidCurrencyCode "eur" = true ∧
    validateInput { baseRec with currency := some "eur" } = .ok () :=
  ⟨rfl, rfl⟩

/-- **C8** (amended). The validator's currency rule is case-insensitive:
`isValidCurrencyCode` accepts exactly the strings of 3 characters whose
uppercased forms are in A-Z (ASCII letters of either case), and for a
record carrying a currency string the rule fires iff the string is
non-empty and not of that shape. -/
theorem currency_rule_case_insensitive :
    (∀ s : String, isValidCurrencyCode s =
      (decide (s.data.length = 3) &&
        s.data.all (fun c => isUpperAZ (jsToUpperChar c)))) ∧
    (∀ (input : PayBySquareInput) (c : String), input.currency = some c →
      vCurrencyBad input =
        (!c.data.isEmpty &&
          !(decide (c.data.length = 3) &&
            c.data.all (fun ch => isUpperAZ (jsToUpperChar ch))))) := by
  have hval : ∀ s : String, isValidCurrencyCode s =
      (decide (s.data.length = 3) &&
        s.data.all (fun c => isUpperAZ (jsToUpperChar c))) := by
    intro s
    unfold isValidCurrencyCode threeUpper jsToUpper
    simp [List.all_map]
    rfl
  refine ⟨hval, fun input c hc => ?_⟩
  unfold vCurrencyBad strTruthy reqStr
  rw [hc]
  simp [hval c]

/-- Witness for C8 at the concrete record with currency "eur": the
currency rule does not fire. -/
theorem currency_rule_case_insensitive_witness :
    vCurrencyBad { baseRec with currency := some "eur" } = false := by
  have h := currency_rule_case_insensitive.2
    { baseRec with currency := some "eur" } "eur" rfl
  simpa using h

/-- Length-is-zero test of an issue list, as a proposition. -/
theorem issuesLen_iff (l : List ComplianceIssue) :
    (l.length == 0) = true ↔ l = [] := by
  simp [List.length_eq_zero]

/-- The errors list of a compliance report, unfolded. -/
theorem checkCompliance_errors (input : PayBySquareInput) :
    (checkCompliance input).errors =
      (match validateIBANChecksum (reqStr input.iban) with
        | some i => [i]
        | none => []) ++
      (validateFieldFormats input).filter isErr ++
      (validateBankingStandards input).filter isErr := rfl

/-- The warnings list of a compliance report, unfolded. -/
theorem checkCompliance_warnings (input : PayBySquareInput) :
    (checkCompliance input).warnings =
      (validateFieldFormats input).filter (fun i => !isErr i) ++
      (validateBankingStandards input).filter (fun i => !isErr i) := rfl

/-- The compliance flag of a report is the emptiness test of its errors. -/
theorem checkCompliance_isCompliant (input : PayBySquareInput) :
    (checkCompliance input).isCompliant =
      ((checkCompliance input).errors.length == 0) := rfl

/-- The ibanValid detail, unfolded. -/
theorem checkCompliance_ibanValid (input : PayBySquareInput) :
    (checkCompliance input).details.ibanValid =
      (validateIBANChecksum (reqStr input.iban)).isNone := rfl

/-- The fieldsValid detail, unfolded. -/
theorem checkCompliance_fieldsValid (input : PayBySquareInput) :
    (checkCompliance input).details.fieldsValid =
      (((validateFieldFormats input).filter isErr).length == 0) := rfl

/-- The bankingStandardsValid detail, unfolded. -/
theorem checkCompliance_bankingValid (input : PayBySquareInput) :
    (checkCompliance input).details.bankingStandardsValid =
      (((validateBankingStandards input).filter isErr).length == 0) := rfl

/-- The totalIssues detail, unfolded. -/
theorem checkCompliance_totalIssues (input : PayBySquareInput) :
    (checkCompliance input).details.totalIssues =
      (checkCompliance input).errors.length +
        (checkCompliance input).warnings.length := rfl

/-- **C3**. The boolean entry point agrees with the detailed report: for
every input, `isCompliant input` equals `(checkCompliance input).isCompliant`,
that value is true iff the report's errors list is empty (warnings never
affect it), and a checksum failure alone already forces `isCompliant` to
false. -/
theorem compliant_iff_no_errors :
    ∀ input : PayBySquareInput,
      isCompliant input = (checkCompliance input).isCompliant ∧
      ((checkCompliance input).isCompliant = true ↔
        (checkCompliance input).errors = []) ∧
      (checksumValid (reqStr input.iban) = false → isCompliant input = false) := by
  intro input
  refine ⟨?_, ?_, ?_⟩
  · rw [checkCompliance_isCompliant, checkCompliance_errors]
    unfold isCompliant validateIBANChecksum
    by_cases hc : checksumValid (reqStr input.iban) = true
    · rw [hc]
      simp [List.filter_append]
    · rw [Bool.eq_false_iff.mpr hc]
      simp
  · rw [checkCompliance_isCompliant]
    exact issuesLen_iff _
  · intro hfalse
    unfold isCompliant
    rw [hfalse]
    rfl

/-- Witness for C3 at a record whose checksum fails. -/
theorem compliant_iff_no_errors_witness :
    isCompliant { iban := some "SK00", beneficiaryName := some "X" } = false :=
  (compliant_iff_no_errors
    { iban := some "SK00", beneficiaryName := some "X" }).2.2 rfl

/-- **C6**. Summary law of `checkCompliance`: in the report's details,
`ibanValid` reflects the IBAN checksum primitive alone, `fieldsValid` and
`bankingStandardsValid` are true iff no error-classified issue arose in
the field-format respectively banking-standards group (warnings do not
falsify them), and `totalIssues` is the count of errors plus the count of
warnings. -/
theorem compliance_summary_law :
    ∀ input : PayBySquareInput,
      (checkCompliance input).details.ibanValid =
        checksumValid (reqStr input.iban) ∧
      ((checkCompliance input).details.fieldsValid = true ↔
        ∀ i ∈ validateFieldFormats input, i.type ≠ IssueType.error) ∧
      ((checkCompliance input).details.bankingStandardsValid = true ↔
        ∀ i ∈ validateBankingStandards input, i.type ≠ IssueType.error) ∧
      (checkCompliance input).details.totalIssues =
        (checkCompliance input).errors.length +
          (checkCompliance input).warnings.length := by
  intro input
  refine ⟨?_, ?_, ?_, checkCompliance_totalIssues input⟩
  · rw [checkCompliance_ibanValid]
    unfold validateIBANChecksum
    by_cases hc : checksumValid (reqStr input.iban) = true
    · rw [hc]; simp
    · rw [Bool.eq_false_iff.mpr hc]; simp
  · rw [checkCompliance_fieldsValid, issuesLen_iff, List.filter_eq_nil_iff]
    constructor
    · intro h i hi
      simpa [isErr] using h i hi
    · intro h i hi
      simpa [isErr] using h i hi
  · rw [checkCompliance_bankingValid, issuesLen_iff, List.filter_eq_nil_iff]
    constructor
    · intro h i hi
      simpa [isErr] using h i hi
    · intro h i hi
      simpa [isErr] using h i hi

/-- A rule table that scans to `none` has no violated rule. -/
theorem firstViolationIn_none_all_false (input : PayBySquareInput)
    (l : List ((PayBySquareInput → Bool) × (PayBySquareInput → String)))
    (h : firstViolationIn input l = none) :
    ∀ r ∈ l, r.1 input = false := by
  induction l with
  | nil => intro r hr; cases hr
  | cons r0 rs ih =>
    intro r hr
    unfold firstViolationIn at h
    by_cases hc : r0.1 input = true
    · rw [if_pos hc] at h; exact Option.noConfusion h
    · rw [if_neg hc] at h
      rcases List.mem_cons.mp hr with h1 | h2
      · subst h1; exact Bool.eq_false_iff.mpr hc
      · exact ih h r h2

/-- A record the validator accepts violates no rule; in particular not
the dueDate rule. -/
theorem validateInput_ok_dueDate_false (input : PayBySquareInput)
    (h : validateInput input = .ok ()) : vDueDateBad input = false := by
  have he : firstViolationExcept input = .ok () :=
    (validateInput_eq_firstViolation input) ▸ h
  have hn : firstViolation input = none := by
    unfold firstViolationExcept at he
    cases hv : firstViolation input with
    | none => rfl
    | some m => rw [hv] at he; simp at he
  have hall := firstViolationIn_none_all_false input validatorRules hn
  have hmem : ((vDueDateBad,
      fun _ => "Due date must be in ISO 8601 format (YYYY-MM-DD)") :
      (PayBySquareInput → Bool) × (PayBySquareInput → String)) ∈
      validatorRules := by
    unfold validatorRules
    simp
  exact hall _ hmem

/-- A date string that matches the grammar but whose numeric triple does
not survive calendar construction fails `isValidISODate`. -/
theorem grammar_no_survive_invalid (s : String)
    (_hg : isoDateGrammar s = true) (ht : tripleSurvives s = false) :
    isValidISODate s = false := by
  unfold tripleSurvives at ht
  unfold isValidISODate
  cases hp : parseISOTriple s with
  | none => rfl
  | some t =>
    obtain ⟨y, m, d⟩ := t
    rw [hp] at ht
    have hne : jsDateYMD y m d ≠ some (y, m, d) := by simpa using ht
    show (match jsDateYMD y m d with
      | none => false
      | some (y2, m2, d2) =>
        decide (y2 = y) && decide (m2 = m) && decide (d2 = d)) = false
    cases hj : jsDateYMD y m d with
    | none => rfl
    | some t2 =>
      obtain ⟨y2, m2, d2⟩ := t2
      rw [hj] at hne
      show (decide (y2 = y) && decide (m2 = m) && decide (d2 = d)) = false
      by_cases hy : y2 = y <;> by_cases hm : m2 = m <;>
        by_cases hd : d2 = d <;> simp_all

/-- **C5** (counterexample). "2026-02-30" matches the dueDate grammar while
its numeric triple does not survive calendar-date construction, yet
`checkCompliance` reports no dueDate error at all — its date rule tests
the grammar only — and even deems the record fully compliant, contradicting
the claim that the exhaustive report records a dueDate error. -/
theorem due_date_compliance_counterexample :
    isoDateGrammar "2026-02-30" = true ∧
    tripleSurvives "2026-02-30" = false ∧
    (checkCompliance { baseRec with dueDate := some "2026-02-30" }).errors.all
      (fun i => i.field != "dueDate") = true ∧
    (checkCompliance
      { baseRec with dueDate := some "2026-02-30" }).isCompliant = true :=
  ⟨rfl, rfl, rfl, rfl⟩

/-- **C5** (amended). For every dueDate that matches the grammar but whose
numeric triple does not survive calendar-date construction, the validator's
dueDate rule rejects (`isValidISODate` is false and `validateInput` never
accepts such a record); the compliance engine, however, checks only the
grammar, so it records no dueDate error for such a date and can report the
record compliant. -/
theorem due_date_calendar_rule :
    (∀ s : String, isoDateGrammar s = true → tripleSurvives s = false →
      isValidISODate s = false) ∧
    (∀ (input : PayBySquareInput) (d : String), input.dueDate = some d →
      isoDateGrammar d = true → tripleSurvives d = false →
      validateInput input ≠ .ok ()) ∧
    (checkCompliance { baseRec with dueDate := some "2026-02-30" }).errors =
      [] ∧
    (checkCompliance
      { baseRec with dueDate := some "2026-02-30" }).isCompliant = true := by
  refine ⟨fun s hg ht => grammar_no_survive_invalid s hg ht, ?_, rfl, rfl⟩
  intro input d hd hg ht hok
  have hdf := validateInput_ok_dueDate_false input hok
  have hval : isValidISODate d = false := grammar_no_survive_invalid d hg ht
  have hne : d.data.isEmpty = false := by
    cases hdata : d.data with
    | nil =>
      unfold isoDateGrammar parseISOTriple at hg
      rw [hdata] at hg
      simp at hg
    | cons a l => rfl
  have hvt : vDueDateBad input = true := by
    unfold vDueDateBad
    rw [hd]
    simp [strTruthy, reqStr, hne, hval]
  rw [hvt] at hdf
  exact Bool.noConfusion hdf

/-- Witness for C5 at the concrete record with dueDate "2026-02-30": the
validator rejects it. -/
theorem due_date_calendar_rule_witness :
    validateInput { baseRec with dueDate := some "2026-02-30" } ≠ .ok () :=
  due_date_calendar_rule.2.1 { baseRec with dueDate := some "2026-02-30" }
    "2026-02-30" rfl rfl rfl

/-- **C9**. Message prefixing of the error classes: every exception the
validator raises has message "Validation Error: " followed by the rule
text (so the rule texts quoted by the spec hold as substrings of the
thrown message, not as the full message), and every DecodingError the
decode-direction transform raises has message "Decoding Error: " followed
by its specific text; in particular the missing-IBAN failure's full
message is "Validation Error: IBAN is required", which differs from the
bare rule text. -/
theorem error_message_prefixing :
    (∀ (input : PayBySquareInput) (m : String),
      validateInput input = .error m →
      validateInputMessage input = some ("Validation Error: " ++ m)) ∧
    (∀ (data : DataModel) (m : String),
      transformFromDataModel data = .error m →
      transformMessage data = some ("Decoding Error: " ++ m)) ∧
    validateInputMessage { beneficiaryName := some "X" } =
      some "Validation Error: IBAN is required" ∧
    validationErrorMessage "IBAN is required" ≠ "IBAN is required" := by
  refine ⟨?_, ?_, rfl, by decide⟩
  · intro input m h
    unfold validateInputMessage
    rw [h]
    rfl
  · intro data m h
    unfold transformMessage
    rw [h]
    rfl

/-- Witness for C9 at the concrete missing-IBAN record. -/
theorem error_message_prefixing_witness :
    validateInputMessage { beneficiaryName := some "X" } =
      some ("Validation Error: " ++ "IBAN is required") :=
  error_message_prefixing.1 { beneficiaryName := some "X" }
    "IBAN is required" rfl

/-- A record whose IBAN carries interior spaces yet is structurally valid
after stripping. -/
def spacedRec : PayBySquareInput :=
  { iban := some "SK96 1100 0000 0029 1859 9669",
    beneficiaryName := some "X" }

/-- **C10**. Whitespace asymmetry between the validator and the compliance
engine: the validator strips whitespace before its structural IBAN check
and accepts the spaced record, while the compliance engine hands the raw
string to the checksum primitive, which rejects it, so the same record
gets a critical iban error, ibanValid false, and isCompliant false; the
stripped form of the same IBAN passes the checksum primitive. -/
theorem whitespace_asymmetry :
    validateInput spacedRec = .ok () ∧
    isCompliant spacedRec = false ∧
    (checkCompliance spacedRec).details.ibanValid = false ∧
    (checkCompliance spacedRec).errors =
      [{ type := .error, field := "iban",
         message := "IBAN checksum validation failed (mod-97 algorithm)",
         severity := .critical }] ∧
    checksumValid "SK9611000000002918599669" = true ∧
    checksumValid "SK96 1100 0000 0029 1859 9669" = false :=
  ⟨rfl, rfl, rfl, rfl, rfl, rfl⟩

end PBSQ
